import Mathlib

/-!
Shallow embedding of the model-registry and training-orchestration subsystem
of the digital-twin backend (files `app/ml/model_manager.py` and
`app/nutrition/food_ml_model.py`), together with theorems settling the
specification claims about it.

Numeric values (Python floats) are modelled as rationals; JSON documents as
typed records and lists; the file system holding serialized model artifacts
as a partial map from paths to abstract model functions; fallible code as
`Except` / explicit error constructors.
-/

namespace BodyTwin

/-! ## Python-semantics helpers -/

/-- Python `x or d` on an optional numeric field: `None` and `0` are falsy,
so both are replaced by the default `d` (mirrors e.g. `t.spo2 or 97`). -/
def pyOr (x : Option ℚ) (d : ℚ) : ℚ :=
  match x with
  | none => d
  | some v => if v = 0 then d else v

/-- Python whitespace characters stripped by `str.strip()`. -/
def pyIsSpace (c : Char) : Bool :=
  c = ' ' || c = '\t' || c = '\n' || c = '\r' || c = '\x0b' || c = '\x0c'

/-- Python `str.strip()` on the underlying character list. -/
def stripChars (l : List Char) : List Char :=
  ((l.dropWhile pyIsSpace).reverse.dropWhile pyIsSpace).reverse

/-- Python `str.lower()` (ASCII case folding, enough for the catalog names). -/
def pyLower (s : String) : String :=
  ⟨s.data.map Char.toLower⟩

/-- Python `str.strip()`. -/
def pyStrip (s : String) : String :=
  ⟨stripChars s.data⟩

/-- Python `str.replace(" ", "_")`: every space character becomes an
underscore. -/
def replaceSpaces (s : String) : String :=
  ⟨s.data.map (fun c => if c = ' ' then '_' else c)⟩

/-- Tests whether the pattern occurs as a leading run of the character list
(used to embed Python `str.startswith` and substring membership). -/
def charListLeads : List Char → List Char → Bool
  | [], _ => true
  | _ :: _, [] => false
  | a :: as, b :: bs => a == b && charListLeads as bs

/-- Tests whether the pattern occurs anywhere in the character list. -/
def charListHas (pat : List Char) : List Char → Bool
  | [] => charListLeads pat []
  | a :: as => charListLeads pat (a :: as) || charListHas pat as

/-- Python `pat in s` on strings (substring test). -/
def strContains (s pat : String) : Bool :=
  charListHas pat.data s.data

/-- Python `s.startswith(p)` for a single-character p. -/
def strStartsWithChar (s : String) (c : Char) : Bool :=
  match s.data with
  | [] => false
  | a :: _ => a == c

/-! ## Twin entities and feature engineering (`app/ml/model_manager.py`) -/

/-- Stored `Twin` entity: the fields consumed by `_build_feature_vector` and
`_build_label`. Nullable database columns are `Option`; `age`, `weight_kg`
and `height_cm` are used without a default in the source, so they are plain
rationals here. -/
structure Twin where
  age : ℚ
  gender : Option String
  weight_kg : ℚ
  height_cm : ℚ
  spo2 : Option ℚ
  resting_hr : Option ℚ
  sleep_hours : Option ℚ
  screen_time_hours : Option ℚ
  exercise_level : Option ℚ
  smoking : Option ℚ
  alcohol : Option ℚ
  daily_steps : Option ℚ
  outside_food_per_week : Option ℚ
  tea_coffee_per_day : Option ℚ
  diet_type : Option String
  income : Option ℚ
  aqi : Option ℚ
  commute_hours : Option ℚ
  ac_exposure_hours : Option ℚ
  heart_score : Option ℚ
  metabolic_score : Option ℚ
  mental_stress_score : Option ℚ
  lung_risk_score : Option ℚ
  organ_load_score : Option ℚ
deriving Repr, DecidableEq

/-- Embeds `_encode_gender`: falsy (missing or empty) maps to 0, names
starting with "m" to 0, with "f" to 1, anything else to 2. -/
def encode_gender (g : Option String) : ℚ :=
  match g with
  | none => 0
  | some g =>
    if g = "" then 0
    else
      let gl := pyLower g
      if strStartsWithChar gl 'm' then 0
      else if strStartsWithChar gl 'f' then 1
      else 2

/-- Embeds `_encode_diet`: falsy maps to 3, "veg" without "non" to 0,
containing "egg" to 1, containing "non" to 2, anything else to 3. -/
def encode_diet (d : Option String) : ℚ :=
  match d with
  | none => 3
  | some d =>
    if d = "" then 3
    else
      let dl := pyLower d
      if strContains dl "veg" && !(strContains dl "non") then 0
      else if strContains dl "egg" then 1
      else if strContains dl "non" then 2
      else 3

/-- Embeds `_build_feature_vector`: the fixed-length numeric feature vector
derived from a stored twin, with the source's truthiness defaults. -/
def build_feature_vector (t : Twin) : List ℚ :=
  let h := t.height_cm / 100
  let bmi := t.weight_kg / (h * h)
  [ t.age,
    encode_gender t.gender,
    bmi,
    pyOr t.spo2 97,
    pyOr t.resting_hr 72,
    pyOr t.sleep_hours 7,
    pyOr t.screen_time_hours 6,
    pyOr t.exercise_level 1,
    pyOr t.smoking 0,
    pyOr t.alcohol 0,
    pyOr t.daily_steps 4000,
    pyOr t.outside_food_per_week 3,
    pyOr t.tea_coffee_per_day 2,
    encode_diet t.diet_type,
    pyOr t.income 600000,
    pyOr t.aqi 120,
    pyOr t.commute_hours 1,
    pyOr t.ac_exposure_hours 4,
    pyOr t.heart_score (3/10),
    pyOr t.metabolic_score (3/10),
    pyOr t.mental_stress_score (3/10),
    pyOr t.lung_risk_score (3/10),
    pyOr t.organ_load_score (2/5) ]

/-- Embeds `_build_label`: the discrete training label obtained by
thresholding the organ-load score at 0.4 / 0.6 / 0.8. -/
def build_label (t : Twin) : ℕ :=
  let ol := pyOr t.organ_load_score 0
  if ol < 2/5 then 0
  else if ol < 3/5 then 1
  else if ol < 4/5 then 2
  else 3

/-- Claim-side reading of the spec sentence for the label rule: the number of
thresholds among 0.4, 0.6, 0.8 that the score strictly exceeds. -/
def spec_label_strict (ol : ℚ) : ℕ :=
  (if 2/5 < ol then 1 else 0) + (if 3/5 < ol then 1 else 0) +
    (if 4/5 < ol then 1 else 0)

/-- Amended claim-side reading: the number of thresholds among 0.4, 0.6, 0.8
that the score meets or exceeds. -/
def spec_label_ge (ol : ℚ) : ℕ :=
  (if 2/5 ≤ ol then 1 else 0) + (if 3/5 ≤ ol then 1 else 0) +
    (if 4/5 ≤ ol then 1 else 0)

/-- Fixed twin whose organ-load score sits exactly on the 0.4 threshold. -/
def twinAtBoundary : Twin :=
  { age := 30, gender := some "male", weight_kg := 70, height_cm := 170,
    spo2 := none, resting_hr := none, sleep_hours := none,
    screen_time_hours := none, exercise_level := none, smoking := none,
    alcohol := none, daily_steps := none, outside_food_per_week := none,
    tea_coffee_per_day := none, diet_type := none, income := none,
    aqi := none, commute_hours := none, ac_exposure_hours := none,
    heart_score := none, metabolic_score := none,
    mental_stress_score := none, lung_risk_score := none,
    organ_load_score := some (2/5) }

/-! ## Registry data model -/

/-- One row of the alert-family registry document `models/models_meta.json`
(the dict appended by `retrain_alert_model`). -/
structure AlertRecord where
  name : String
  path : String
  model_type : String
  accuracy : ℚ
  f1_macro : ℚ
  mlflow_run_id : String
  created_at : String
  active : Bool
deriving Repr, DecidableEq

/-- One row of the food-family registry document
`models_food/food_models_meta.json` (the dict appended by
`retrain_food_model`). -/
structure FoodRecord where
  name : String
  path : String
  mae : ℚ
  mlflow_run_id : String
  created_at : String
  active : Bool
deriving Repr, DecidableEq

/-- A serialized alert pipeline, seen through `model.predict` on one feature
vector: it returns the predicted class id. -/
def AlertModelFun := List ℚ → ℕ

instance : Inhabited AlertModelFun := ⟨fun _ => 0⟩

/-- A serialized food regressor, seen through `model.predict` on one
`[food_idx, qty]` row: it returns the four predicted nutrient values
(calories, protein, carbs, fat). -/
def FoodModelFun := ℕ → ℚ → ℚ × ℚ × ℚ × ℚ

instance : Inhabited FoodModelFun := ⟨fun _ _ => (0, 0, 0, 0)⟩

/-- Durable state of the alert family: the `models` array of the registry
document (a missing document is materialized as the empty array by
`_ensure_dirs`), plus the artifact files on disk, as a map from path to the
pipeline `joblib.load` would deserialize there. -/
structure AlertState where
  registry : List AlertRecord
  artifacts : String → Option AlertModelFun

/-- Durable state of the food family, shaped like `AlertState`. -/
structure FoodState where
  registry : List FoodRecord
  artifacts : String → Option FoodModelFun

/-- Embeds `joblib.dump(model, path)`: the file at `path` is created or
overwritten. -/
def dumpArtifact {M : Type} (fs : String → Option M) (p : String) (m : M) :
    String → Option M :=
  fun q => if q = p then some m else fs q

/-- Embeds `os.path.exists(path)` against an artifact store. -/
def osPathExists {M : Type} (fs : String → Option M) (p : String) : Bool :=
  (fs p).isSome

/-- Embeds `joblib.load(path)`; only evaluated on paths that exist. -/
def loadArtifact {M : Type} [Inhabited M] (fs : String → Option M)
    (p : String) : M :=
  (fs p).getD default

/-! ## Registry accessors (`get_active_*`) -/

/-- Embeds `get_active_model_path` from `model_manager.py`: filter the
records whose `active` field is truthy and take the last one's path, `None`
when none is active. -/
def get_active_model_path (models : List AlertRecord) : Option String :=
  let active := models.filter (fun m => m.active)
  match active.getLast? with
  | some m => some m.path
  | none => none

/-- Embeds `get_active_model_info` from `model_manager.py`: scan the records
in reverse and return the first active one. -/
def get_active_model_info (models : List AlertRecord) :
    Option AlertRecord :=
  models.reverse.find? (fun m => m.active)

/-- Embeds `get_active_food_model_path` from `food_ml_model.py`: filter the
active records and take the last one's path. -/
def get_active_food_model_path (models : List FoodRecord) : Option String :=
  let active := models.filter (fun m => m.active)
  match active.getLast? with
  | some m => some m.path
  | none => none

/-! ## Food catalog and meal normalization (`app/nutrition/food_ml_model.py`) -/

/-- Embeds `FOOD_DB` in insertion order: per-unit
(calories, protein, carbs, fat) for each food name. -/
def FOOD_DB : List (String × ℚ × ℚ × ℚ × ℚ) := [
  ("idli", 70, 2, 12, 1/2),
  ("dosa", 130, 3, 20, 4),
  ("poha", 180, 4, 30, 5),
  ("upma", 200, 5, 28, 7),
  ("aloo_paratha", 220, 5, 30, 9),
  ("chai", 80, 2, 10, 3),
  ("coffee", 60, 2, 6, 2),
  ("bread_slice", 75, 5/2, 14, 1),
  ("omelette", 120, 8, 1, 9),
  ("curd_bowl", 90, 5, 4, 5),
  ("paratha_plain", 190, 4, 28, 7),
  ("banana", 100, 6/5, 25, 3/10) ]

/-- Embeds `FOOD_INDEX`: the stable integer index of a food name in the
catalog's insertion order, `none` when the name is not in the catalog. -/
def FOOD_INDEX (name : String) : Option ℕ :=
  (FOOD_DB.map Prod.fst).findIdx? (fun n => n == name)

/-- Embeds the source's item-name normalization
`.strip().lower().replace(" ", "_")`, applied in that order. -/
def normalize_food_name (s : String) : String :=
  replaceSpaces (pyLower (pyStrip s))

/-- One entry of the `items` list passed to `predict_meal_nutrition`: a JSON
object whose `name` and `quantity` keys may each be absent. -/
structure MealItem where
  name : Option String
  quantity : Option ℚ
deriving Repr, DecidableEq

/-- Returned value of `predict_meal_nutrition`. -/
structure NutritionTotals where
  calories : ℚ
  protein : ℚ
  carbs : ℚ
  fat : ℚ
deriving Repr, DecidableEq

/-! ## Food-family training and prediction -/

/-- External inputs of one food-training run: what fitting the regressor on
the synthetic dataset produces, the held-out mean absolute error, the
experiment-tracker run id, and the two wall-clock reads used for the
artifact filename and the `created_at` field. -/
structure FoodEnv where
  trained_model : FoodModelFun
  mae : ℚ
  run_id : String
  timestamp : String
  now_iso : String

/-- Artifact basename `food_model_{timestamp}.joblib`. -/
def food_model_basename (ts : String) : String :=
  "food_model_" ++ ts ++ ".joblib"

/-- Artifact path `models_food/food_model_{timestamp}.joblib`. -/
def food_model_path (ts : String) : String :=
  "models_food/" ++ food_model_basename ts

/-- Summary dict returned by `retrain_food_model`. -/
structure FoodSummary where
  status : String
  mae : ℚ
  model_path : String
  mlflow_run_id : String
deriving Repr, DecidableEq

/-- Embeds `retrain_food_model`: dump the fitted regressor to a
timestamp-named artifact, clear every `active` flag in the registry, append
the new record as active, persist, and return the summary. -/
def retrain_food_model (env : FoodEnv) (s : FoodState) :
    FoodState × FoodSummary :=
  let path := food_model_path env.timestamp
  let arts := dumpArtifact s.artifacts path env.trained_model
  let registry :=
    s.registry.map (fun m => { m with active := false }) ++
      [{ name := food_model_basename env.timestamp, path := path,
         mae := env.mae, mlflow_run_id := env.run_id,
         created_at := env.now_iso, active := true }]
  (⟨registry, arts⟩,
   ⟨"trained_food_model", env.mae, path, env.run_id⟩)

/-- Embeds `_load_active_food_model`: look up the active record's path; when
it is falsy or the file does not exist, run `retrain_food_model` once and
load its artifact, otherwise load the existing artifact. The third component
counts the training runs triggered by the call. -/
def load_active_food_model (env : FoodEnv) (s : FoodState) :
    FoodModelFun × FoodState × ℕ :=
  match get_active_food_model_path s.registry with
  | none =>
    let r := retrain_food_model env s
    (loadArtifact r.1.artifacts r.2.model_path, r.1, 1)
  | some p =>
    if p = "" || !(osPathExists s.artifacts p) then
      let r := retrain_food_model env s
      (loadArtifact r.1.artifacts r.2.model_path, r.1, 1)
    else
      (loadArtifact s.artifacts p, s, 0)

/-- One iteration of the accumulation loop in `predict_meal_nutrition`:
normalize the item name, default the quantity to 1.0, silently skip names
absent from the catalog, and otherwise add the regressor's four outputs to
the running totals. -/
def mealStep (model : FoodModelFun) (tot : ℚ × ℚ × ℚ × ℚ)
    (it : MealItem) : ℚ × ℚ × ℚ × ℚ :=
  let raw_name := normalize_food_name (it.name.getD "")
  let qty := it.quantity.getD 1
  match FOOD_INDEX raw_name with
  | none => tot
  | some idx =>
    let r := model idx qty
    (tot.1 + r.1, tot.2.1 + r.2.1, tot.2.2.1 + r.2.2.1,
     tot.2.2.2 + r.2.2.2)

/-- Accumulation loop of `predict_meal_nutrition` over all items, starting
from zero totals. -/
def mealTotals (model : FoodModelFun) (items : List MealItem) :
    ℚ × ℚ × ℚ × ℚ :=
  items.foldl (mealStep model) (0, 0, 0, 0)

/-- Packs the four accumulated sums into the returned dict. -/
def packTotals (t : ℚ × ℚ × ℚ × ℚ) : NutritionTotals :=
  ⟨t.1, t.2.1, t.2.2.1, t.2.2.2⟩

/-- Embeds `predict_meal_nutrition`: load (bootstrapping if needed) the
active food model, then accumulate the predicted nutrients of every
recognized item. Alongside the returned totals, the embedding carries the
resulting durable state and the number of training runs the call
triggered. -/
def predict_meal_nutrition (env : FoodEnv) (s : FoodState)
    (items : List MealItem) : NutritionTotals × FoodState × ℕ :=
  let l := load_active_food_model env s
  (packTotals (mealTotals l.1 items), l.2.1, l.2.2)

/-! ## Alert-family training and prediction (`app/ml/model_manager.py`) -/

/-- Fixed candidate roster of `retrain_alert_model`, in the insertion order
of the `models` dict; `xgboost` joins the roster only when the optional
backend imported successfully. -/
def alert_roster (xgboost_available : Bool) : List String :=
  ["logreg", "rf", "gb", "knn", "extra_trees", "adaboost"] ++
    (if xgboost_available then ["xgboost"] else [])

/-- Artifact basename `alert_{key}_{timestamp}.joblib`. -/
def alert_model_basename (key ts : String) : String :=
  "alert_" ++ key ++ "_" ++ ts ++ ".joblib"

/-- Artifact path `models/alert_{key}_{timestamp}.joblib`. -/
def alert_model_path (key ts : String) : String :=
  "models/" ++ alert_model_basename key ts

/-- Embeds `os.path.basename`: the part of the path after the last slash. -/
def osPathBasename (p : String) : String :=
  ⟨(p.data.reverse.takeWhile (fun c => !(c = '/'))).reverse⟩

/-- External inputs of one alert-training run: per-candidate held-out
metrics and fitted pipelines produced by scikit-learn, per-candidate
experiment-tracker run ids, the wall-clock reads, and whether the optional
xgboost backend is importable. -/
structure AlertEnv where
  f1_of : String → ℚ
  acc_of : String → ℚ
  run_of : String → String
  fit_of : String → AlertModelFun
  timestamp : String
  now_iso : String
  xgboost_available : Bool

/-- Mutable selection state of the candidate loop in
`retrain_alert_model`. -/
structure BestState where
  best_model_path : Option String
  best_f1 : ℚ
  best_acc : ℚ
  best_key : Option String
  best_run : Option String

/-- Initial selection state: `best_model_path = None`, `best_f1 = -1`,
`best_acc = 0`, `best_key = None`, `best_run = None`. -/
def bakeoff_init : BestState :=
  ⟨none, -1, 0, none, none⟩

/-- One iteration of the candidate loop: the current candidate displaces the
incumbent exactly when its macro-F1 is strictly greater than `best_f1`. -/
def bakeoff_step (env : AlertEnv) (b : BestState) (key : String) :
    BestState :=
  if env.f1_of key > b.best_f1 then
    ⟨some (alert_model_path key env.timestamp), env.f1_of key,
      env.acc_of key, some key, some (env.run_of key)⟩
  else b

/-- Selection loop of `retrain_alert_model` over the fixed roster. -/
def bakeoff (env : AlertEnv) : BestState :=
  (alert_roster env.xgboost_available).foldl (bakeoff_step env) bakeoff_init

/-- Summary dict returned by a successful `retrain_alert_model`. -/
structure AlertSummary where
  status : String
  best_model : String
  accuracy : ℚ
  f1_macro : ℚ
  model_path : String
  mlflow_run_id : String
deriving Repr, DecidableEq

/-- Artifact files written by the candidate loop: every candidate's fitted
pipeline is dumped to its timestamp-named path. -/
def dumpAllCandidates (env : AlertEnv)
    (fs : String → Option AlertModelFun) : String → Option AlertModelFun :=
  (alert_roster env.xgboost_available).foldl
    (fun acc k => dumpArtifact acc (alert_model_path k env.timestamp)
      (env.fit_of k))
    fs

/-- Registry record appended for the winning candidate whose artifact path
is `bp`: the dict literal appended by `retrain_alert_model`. -/
def winningAlertRecord (env : AlertEnv) (bp : String) : AlertRecord :=
  { name := osPathBasename bp, path := bp,
    model_type := (bakeoff env).best_key.getD "",
    accuracy := (bakeoff env).best_acc,
    f1_macro := (bakeoff env).best_f1,
    mlflow_run_id := (bakeoff env).best_run.getD "",
    created_at := env.now_iso, active := true }

/-- Summary dict returned by `retrain_alert_model` for the winning
candidate whose artifact path is `bp`. -/
def winningAlertSummary (env : AlertEnv) (bp : String) : AlertSummary :=
  { status := "trained_on_real_db",
    best_model := (bakeoff env).best_key.getD "",
    accuracy := (bakeoff env).best_acc,
    f1_macro := (bakeoff env).best_f1,
    model_path := bp,
    mlflow_run_id := (bakeoff env).best_run.getD "" }

/-- Embeds `retrain_alert_model`. With fewer than 10 stored twins,
`_load_training_data_from_db` raises `ValueError("Not enough twins to train
model.")` before any candidate is fitted, leaving the state untouched.
Otherwise every roster candidate is fitted and dumped, the macro-F1
selection loop runs, and — provided a winner exists, which is where
`os.path.basename(None)` would otherwise raise a `TypeError` — every
existing record's `active` flag is cleared and the winner's record is
appended as active. The middle component counts the candidates fitted by
the call. -/
def retrain_alert_model (env : AlertEnv) (twins : List Twin)
    (s : AlertState) : AlertState × ℕ × Except String AlertSummary :=
  if twins.length < 10 then
    (s, 0, Except.error "Not enough twins to train model.")
  else
    match (bakeoff env).best_model_path with
    | none =>
      (⟨s.registry, dumpAllCandidates env s.artifacts⟩,
       (alert_roster env.xgboost_available).length,
       Except.error
         "TypeError: expected str, bytes or os.PathLike object, not NoneType")
    | some bp =>
      (⟨s.registry.map (fun m => { m with active := false }) ++
          [winningAlertRecord env bp],
        dumpAllCandidates env s.artifacts⟩,
       (alert_roster env.xgboost_available).length,
       Except.ok (winningAlertSummary env bp))

/-- Result of `predict_alert_for_twin`: the explicit error dict, an uncaught
exception, or the prediction dict. -/
inductive AlertOutcome where
  | errorResult (msg : String)
  | exn (msg : String)
  | result (class_id : ℕ) (label : String)
deriving Repr, DecidableEq

/-- Embeds the fixed `labels` dict of `predict_alert_for_twin`; lookup of a
key outside `{0,1,2,3}` is a `KeyError`. -/
def labels_table (k : ℕ) : Option String :=
  if k = 0 then some "no_consult"
  else if k = 1 then some "routine_consult"
  else if k = 2 then some "specialist_consult"
  else if k = 3 then some "emergency"
  else none

/-- Embeds `predict_alert_for_twin`: a falsy active path yields the explicit
"No active model found" dict; a missing artifact file makes `joblib.load`
raise; otherwise the loaded pipeline predicts a class that is mapped through
the labels dict. The function performs no write: alongside the outcome, the
embedding returns the unchanged durable state and the number of training
runs triggered, which is 0 on every path of the source. -/
def predict_alert_for_twin (s : AlertState) (twin : Twin) :
    AlertOutcome × AlertState × ℕ :=
  match get_active_model_path s.registry with
  | none => (.errorResult "No active model found", s, 0)
  | some path =>
    if path = "" then (.errorResult "No active model found", s, 0)
    else
      match s.artifacts path with
      | none => (.exn ("FileNotFoundError: " ++ path), s, 0)
      | some mdl =>
        let pred := mdl (build_feature_vector twin)
        match labels_table pred with
        | some lbl => (.result pred lbl, s, 0)
        | none => (.exn "KeyError", s, 0)

/-- Claim-side reading of the selection policy (spec 4.2): the candidate
with the strictly highest macro-F1 wins, and on an exact tie the candidate
evaluated first among the tied ones wins — i.e. a later candidate displaces
an earlier one only when strictly better. -/
def spec_first_max : List (String × ℚ) → Option (String × ℚ)
  | [] => none
  | c :: rest =>
    match spec_first_max rest with
    | none => some c
    | some b => if b.2 > c.2 then some b else some c

/-- Boolean success test for `Except` (used to phrase "successful run"). -/
def isOkE {ε α : Type} : Except ε α → Bool
  | .ok _ => true
  | .error _ => false

/-! ## Concrete inputs used by witnesses and counterexamples -/

/-- Ill-formed alert registry with two simultaneously active records. -/
def msDupActive : List AlertRecord :=
  [ { name := "a1", path := "models/a1.joblib", model_type := "rf",
      accuracy := 1, f1_macro := 1, mlflow_run_id := "r1",
      created_at := "t1", active := true },
    { name := "a2", path := "models/a2.joblib", model_type := "knn",
      accuracy := 1, f1_macro := 1, mlflow_run_id := "r2",
      created_at := "t2", active := true } ]

/-- Alert registry in which no record is active. -/
def msAllInactive : List AlertRecord :=
  [ { name := "a1", path := "models/a1.joblib", model_type := "rf",
      accuracy := 1, f1_macro := 1, mlflow_run_id := "r1",
      created_at := "t1", active := false } ]

/-- Concrete food-training environment with an integer-valued fitted
regressor. -/
def envFoodA : FoodEnv :=
  ⟨fun _ _ => (5, 1, 2, 3), 1, "runA", "20250101-000000",
    "2025-01-01T00:00:00"⟩

/-- Second concrete food-training environment, distinct from `envFoodA`. -/
def envFoodB : FoodEnv :=
  ⟨fun _ _ => (7, 2, 3, 4), 2, "runB", "20250102-000000",
    "2025-01-02T00:00:00"⟩

/-- Food-family state with an empty registry and no artifact files. -/
def foodStateEmpty : FoodState :=
  ⟨[], fun _ => none⟩

/-- Food-family state whose single active record points at an artifact path
that does not exist on disk (registry/storage desynchronization). -/
def foodStateDangling : FoodState :=
  ⟨[ { name := "food_model_x.joblib",
       path := "models_food/food_model_x.joblib", mae := 1,
       mlflow_run_id := "r", created_at := "t", active := true } ],
    fun _ => none⟩

/-- Alert-family state whose single active record points at an artifact
path that does not exist on disk. -/
def alertStateDangling : AlertState :=
  ⟨[ { name := "a1.joblib", path := "models/a1.joblib", model_type := "rf",
       accuracy := 1, f1_macro := 1, mlflow_run_id := "r1",
       created_at := "t1", active := true } ],
    fun _ => none⟩

/-- Alert-family state with an empty registry and no artifact files. -/
def alertStateEmpty : AlertState :=
  ⟨[], fun _ => none⟩

/-- Nine identical stored twins: one short of the sufficiency gate. -/
def twins9 : List Twin := List.replicate 9 twinAtBoundary

/-- Ten identical stored twins: exactly at the sufficiency gate. -/
def twins10 : List Twin := List.replicate 10 twinAtBoundary

/-- Concrete alert-training environment: every candidate scores macro-F1 1
and accuracy 1. -/
def envAlertA : AlertEnv :=
  ⟨fun _ => 1, fun _ => 1, fun _ => "runX", fun _ => fun _ => 0,
    "20250101-000000", "2025-01-01T00:00:00", false⟩

/-- Concrete alert-training environment realizing the spec's selection
example shape: the second and third candidates tie with the strictly
highest macro-F1. -/
def envAlertC4 : AlertEnv :=
  ⟨fun k => if k = "logreg" then 70 else if k = "rf" then 85
    else if k = "gb" then 85 else 10,
    fun _ => 50, fun _ => "runY", fun _ => fun _ => 0,
    "20250102-000000", "2025-01-02T00:00:00", false⟩

/-- Concrete loaded classifier that always predicts class 2. -/
def mdlConst2 : AlertModelFun := fun _ => 2

/-- Alert-family state whose single active record's artifact exists and
deserializes to `mdlConst2`. -/
def alertStateServing : AlertState :=
  ⟨[ { name := "a1.joblib", path := "models/a1.joblib", model_type := "rf",
       accuracy := 1, f1_macro := 1, mlflow_run_id := "r1",
       created_at := "t1", active := true } ],
    fun q => if q = "models/a1.joblib" then some mdlConst2 else none⟩

/-! ## General lemmas -/

/-- Scanning a list in reverse for the first hit is the same as taking the
last element that satisfies the test. -/
theorem find?_reverse_eq_getLast?_filter {α : Type} (p : α → Bool)
    (l : List α) : l.reverse.find? p = (l.filter p).getLast? := by
  induction l using List.reverseRecOn with
  | nil => rfl
  | append_singleton l a ih =>
    rw [List.reverse_append, List.filter_append]
    rw [List.reverse_singleton, List.singleton_append]
    rw [List.find?_cons]
    cases hpa : p a with
    | true =>
      rw [List.filter_cons, hpa]
      simp only [if_pos trivial, List.filter_nil]
      rw [List.getLast?_concat]
    | false =>
      rw [List.filter_cons, hpa]
      simp only [Bool.false_eq_true, if_false, List.filter_nil,
        List.append_nil]
      exact ih

/-! ## Claim C7: alert training label -/

/-- C7 counterexample: at an organ-load score exactly equal to the 0.4
threshold, `_build_label` returns 1, while the number of thresholds the
score strictly exceeds is 0 — so the claimed "number of thresholds
exceeded" rule fails at threshold boundaries. -/
theorem C7_counterexample_boundary_score :
    build_label twinAtBoundary ≠
      spec_label_strict (pyOr twinAtBoundary.organ_load_score 0) := by
  norm_num [build_label, spec_label_strict, twinAtBoundary, pyOr]

/-- C7 (amended): for every stored entity, the training label assigned by
`_build_label` equals the number of thresholds among 0.4, 0.6, 0.8 that the
entity's organ-load score (with the source's falsy-to-0.0 defaulting) meets
or exceeds — a value in {0,1,2,3} determined by this rule also at scores
exactly equal to a threshold. -/
theorem C7_label_counts_thresholds_met (t : Twin) :
    build_label t = spec_label_ge (pyOr t.organ_load_score 0) := by
  simp only [build_label, spec_label_ge]
  split_ifs <;> first | rfl | linarith

/-! ## Claim C8: defensive last-active accessors -/

/-- C8: on every registry document — including ill-formed ones holding
several records with `active = true` — the record-returning accessor
`get_active_model_info` returns the active record appearing last in
insertion order (`none` when no record is active), the path-returning
accessors of both families return exactly that record's path, and the two
alert accessors agree on the selected record. All accessors are total, so no
input makes a reader crash. -/
theorem C8_get_active_returns_last_active
    (ms : List AlertRecord) (fs : List FoodRecord) :
    get_active_model_info ms = (ms.filter (fun m => m.active)).getLast? ∧
    get_active_model_path ms =
      ((ms.filter (fun m => m.active)).getLast?).map (fun m => m.path) ∧
    get_active_model_path ms =
      (get_active_model_info ms).map (fun m => m.path) ∧
    ((∀ m ∈ ms, m.active = false) →
      get_active_model_info ms = none ∧ get_active_model_path ms = none) ∧
    get_active_food_model_path fs =
      ((fs.filter (fun m => m.active)).getLast?).map (fun m => m.path) := by
  have h1 : get_active_model_info ms =
      (ms.filter (fun m => m.active)).getLast? :=
    find?_reverse_eq_getLast?_filter _ ms
  have h2 : get_active_model_path ms =
      ((ms.filter (fun m => m.active)).getLast?).map (fun m => m.path) := by
    unfold get_active_model_path
    cases hg : (ms.filter (fun m => m.active)).getLast? <;> simp [hg]
  have h5 : get_active_food_model_path fs =
      ((fs.filter (fun m => m.active)).getLast?).map (fun m => m.path) := by
    unfold get_active_food_model_path
    cases hg : (fs.filter (fun m => m.active)).getLast? <;> simp [hg]
  refine ⟨h1, h2, by rw [h1]; exact h2, ?_, h5⟩
  intro hall
  have hnil : ms.filter (fun m => m.active) = [] := by
    rw [List.filter_eq_nil_iff]
    intro m hm
    simp [hall m hm]
  rw [h1, h2, hnil]
  exact ⟨rfl, rfl⟩

/-- C8 witness: the accessor theorem applied to a concrete all-inactive
registry (discharging the no-active hypothesis) and to a concrete
duplicate-active registry. -/
theorem C8_get_active_returns_last_active_witness :
    ((∀ m ∈ msAllInactive, m.active = false) ∧
      (get_active_model_info msAllInactive = none ∧
        get_active_model_path msAllInactive = none)) ∧
    get_active_model_info msDupActive =
      (msDupActive.filter (fun m => m.active)).getLast? :=
  ⟨⟨by decide, (C8_get_active_returns_last_active msAllInactive []).2.2.2.1
      (by decide)⟩,
    (C8_get_active_returns_last_active msDupActive []).1⟩

/-- Clearing every `active` flag leaves no active record to filter out. -/
theorem filter_active_map_deact_food (l : List FoodRecord) :
    (l.map (fun m => { m with active := false })).filter
      (fun m => m.active) = [] := by
  simp

/-- A generated food artifact path is never the empty string, so it is not
falsy for the `if not path` test. -/
theorem food_model_path_ne_empty (ts : String) : food_model_path ts ≠ "" := by
  intro h
  have h2 := congrArg String.length h
  simp [food_model_path, food_model_basename, String.length_append] at h2
  exact (by decide : ¬ ("models_food/".length = 0)) h2.1

/-- Right after a food-training run, the active path is the path of the
just-dumped artifact. -/
theorem get_active_food_after_retrain (env : FoodEnv) (s : FoodState) :
    get_active_food_model_path ((retrain_food_model env s).1).registry =
      some (food_model_path env.timestamp) := by
  unfold retrain_food_model get_active_food_model_path
  simp [List.filter_append, filter_active_map_deact_food, List.filter_cons]

/-- An item whose normalized name is not in the catalog leaves the totals
untouched. -/
theorem mealStep_unknown (model : FoodModelFun) (tot : ℚ × ℚ × ℚ × ℚ)
    (it : MealItem)
    (h : FOOD_INDEX (normalize_food_name (it.name.getD "")) = none) :
    mealStep model tot it = tot := by
  simp only [mealStep, h]

/-- Removing an uncatalogued item anywhere in the request leaves the
accumulated totals unchanged. -/
theorem mealTotals_unknown_middle (model : FoodModelFun)
    (l1 l2 : List MealItem) (u : MealItem)
    (h : FOOD_INDEX (normalize_food_name (u.name.getD "")) = none) :
    mealTotals model (l1 ++ u :: l2) = mealTotals model (l1 ++ l2) := by
  unfold mealTotals
  rw [List.foldl_append, List.foldl_append, List.foldl_cons,
    mealStep_unknown _ _ _ h]

/-- The accumulation loop fixes any accumulator on a list of uncatalogued
items. -/
theorem foldl_mealStep_all_unknown (model : FoodModelFun)
    (items : List MealItem)
    (h : ∀ u ∈ items, FOOD_INDEX (normalize_food_name (u.name.getD "")) =
      none) :
    ∀ acc, items.foldl (mealStep model) acc = acc := by
  induction items with
  | nil => intro acc; rfl
  | cons a l ih =>
    intro acc
    rw [List.foldl_cons, mealStep_unknown _ _ _ (h a (List.mem_cons_self a l))]
    exact ih (fun u hu => h u (List.mem_cons_of_mem a hu)) acc

/-! ## Claim C5: lazy bootstrap of the food model -/

/-- C5: calling food prediction in a state with no active food record
triggers exactly one synchronous food-training run, and both the totals and
the resulting durable state come from that run's model; every subsequent
food prediction in the resulting state — under any later environment
`env2` — triggers no training run, leaves the state unchanged, and reuses
the model trained by the first call. -/
theorem C5_lazy_bootstrap_trains_once (env env2 : FoodEnv) (s : FoodState)
    (items items2 : List MealItem)
    (h : get_active_food_model_path s.registry = none) :
    predict_meal_nutrition env s items =
      (packTotals (mealTotals env.trained_model items),
        (retrain_food_model env s).1, 1) ∧
    predict_meal_nutrition env2 (retrain_food_model env s).1 items2 =
      (packTotals (mealTotals env.trained_model items2),
        (retrain_food_model env s).1, 0) := by
  constructor
  · unfold predict_meal_nutrition load_active_food_model
    rw [h]
    simp [retrain_food_model, loadArtifact, dumpArtifact]
  · unfold predict_meal_nutrition load_active_food_model
    rw [get_active_food_after_retrain]
    have hne : ¬ (food_model_path env.timestamp = "") :=
      food_model_path_ne_empty env.timestamp
    simp [retrain_food_model, osPathExists, dumpArtifact, loadArtifact, hne]

/-- C5 witness: the bootstrap theorem applied at a concrete empty registry
with two concrete environments. -/
theorem C5_lazy_bootstrap_trains_once_witness :
    predict_meal_nutrition envFoodA foodStateEmpty [] =
      (packTotals (mealTotals envFoodA.trained_model []),
        (retrain_food_model envFoodA foodStateEmpty).1, 1) ∧
    predict_meal_nutrition envFoodB
        (retrain_food_model envFoodA foodStateEmpty).1 [] =
      (packTotals (mealTotals envFoodA.trained_model []),
        (retrain_food_model envFoodA foodStateEmpty).1, 0) :=
  C5_lazy_bootstrap_trains_once envFoodA envFoodB foodStateEmpty [] []
    (by rfl)

/-! ## Claim C9: normalization and unknown-item tolerance -/

/-- C9: food prediction normalizes item names by trimming, lowercasing and
replacing spaces with underscores (witnessed on a concrete name); an item
whose normalized name is absent from the catalog is silently skipped, so
inserting such an item anywhere in a request changes nothing about the
returned totals (nor the resulting state or training count); and when every
item is unmatched the returned totals are 0.0 for calories, protein, carbs
and fat. -/
theorem C9_unknown_items_contribute_nothing :
    normalize_food_name " Aloo Paratha " = "aloo_paratha" ∧
    (∀ (env : FoodEnv) (s : FoodState) (l1 l2 : List MealItem)
      (u : MealItem),
      FOOD_INDEX (normalize_food_name (u.name.getD "")) = none →
      predict_meal_nutrition env s (l1 ++ u :: l2) =
        predict_meal_nutrition env s (l1 ++ l2)) ∧
    (∀ (env : FoodEnv) (s : FoodState) (items : List MealItem),
      (∀ u ∈ items,
        FOOD_INDEX (normalize_food_name (u.name.getD "")) = none) →
      (predict_meal_nutrition env s items).1 = ⟨0, 0, 0, 0⟩) := by
  refine ⟨by decide, ?_, ?_⟩
  · intro env s l1 l2 u h
    simp only [predict_meal_nutrition, mealTotals_unknown_middle _ _ _ _ h]
  · intro env s items h
    simp only [predict_meal_nutrition, mealTotals,
      foldl_mealStep_all_unknown _ _ h]
    rfl

/-- C9 witness: adding the unknown item "unobtainium" to a one-item idli
request leaves the whole result unchanged, and a request consisting only of
that unknown item returns all-zero totals. -/
theorem C9_unknown_items_contribute_nothing_witness :
    predict_meal_nutrition envFoodA foodStateEmpty
        ([⟨some "idli", some 2⟩] ++ ⟨some "unobtainium", some 1⟩ :: []) =
      predict_meal_nutrition envFoodA foodStateEmpty
        ([⟨some "idli", some 2⟩] ++ []) ∧
    (predict_meal_nutrition envFoodA foodStateEmpty
        [⟨some "unobtainium", some 1⟩]).1 = ⟨0, 0, 0, 0⟩ :=
  ⟨C9_unknown_items_contribute_nothing.2.1 envFoodA foodStateEmpty
      [⟨some "idli", some 2⟩] [] ⟨some "unobtainium", some 1⟩ (by decide),
    C9_unknown_items_contribute_nothing.2.2 envFoodA foodStateEmpty
      [⟨some "unobtainium", some 1⟩] (by decide)⟩

/-! ## Claim C10: missing quantity defaults to 1.0 -/

/-- C10: an item without a "quantity" key is treated exactly as one with an
explicit quantity of 1.0 — the whole prediction result (totals, state and
training count) is unchanged by making the default explicit; in particular
this holds for items with a catalog-known name. -/
theorem C10_missing_quantity_defaults_to_one (env : FoodEnv)
    (s : FoodState) (l1 l2 : List MealItem) (n : Option String) :
    predict_meal_nutrition env s (l1 ++ (⟨n, none⟩ : MealItem) :: l2) =
      predict_meal_nutrition env s (l1 ++ (⟨n, some 1⟩ : MealItem) :: l2) := by
  have hms : ∀ (model : FoodModelFun) (tot : ℚ × ℚ × ℚ × ℚ),
      mealStep model tot ⟨n, none⟩ = mealStep model tot ⟨n, some 1⟩ := by
    intro model tot
    rfl
  have ht : ∀ model : FoodModelFun,
      mealTotals model (l1 ++ (⟨n, none⟩ : MealItem) :: l2) =
        mealTotals model (l1 ++ (⟨n, some 1⟩ : MealItem) :: l2) := by
    intro model
    unfold mealTotals
    rw [List.foldl_append, List.foldl_append, List.foldl_cons,
      List.foldl_cons, hms]
  simp only [predict_meal_nutrition]
  rw [ht]

/-! ## Claim C2: missing-artifact behavior -/

/-- C2 counterexample: a concrete food registry whose single active record
references an artifact path that does not exist on disk. Contrary to the
claim, the prediction request is not surfaced as a hard failure: food
prediction silently treats the missing artifact exactly like the absence of
a model, triggers one training run, and returns an ordinary totals
result. -/
theorem C2_counterexample_food_swallows_missing_artifact :
    get_active_food_model_path foodStateDangling.registry =
      some "models_food/food_model_x.joblib" ∧
    foodStateDangling.artifacts "models_food/food_model_x.joblib" = none ∧
    (predict_meal_nutrition envFoodA foodStateDangling []).2.2 = 1 ∧
    (predict_meal_nutrition envFoodA foodStateDangling []).1 =
      ⟨0, 0, 0, 0⟩ :=
  ⟨by decide, rfl, by decide, by decide⟩

/-- C2 (amended): the two families handle a missing artifact differently.
For alert prediction, an active record whose path is not on disk makes the
load raise — a hard failure distinct from the "No active model found"
result — with no training and no registry change. Food prediction, by
contrast, treats the missing artifact exactly like the absence of a model:
it synchronously retrains once and serves the prediction from the new
model. -/
theorem C2_amended_artifact_failure_is_asymmetric :
    (∀ (s : AlertState) (t : Twin) (p : String),
      get_active_model_path s.registry = some p → ¬ (p = "") →
      s.artifacts p = none →
      predict_alert_for_twin s t =
        (.exn ("FileNotFoundError: " ++ p), s, 0) ∧
      AlertOutcome.exn ("FileNotFoundError: " ++ p) ≠
        AlertOutcome.errorResult "No active model found") ∧
    (∀ (env : FoodEnv) (s : FoodState) (items : List MealItem) (p : String),
      get_active_food_model_path s.registry = some p →
      s.artifacts p = none →
      predict_meal_nutrition env s items =
        (packTotals (mealTotals env.trained_model items),
          (retrain_food_model env s).1, 1)) := by
  constructor
  · intro s t p h1 h2 h3
    constructor
    · unfold predict_alert_for_twin
      rw [h1]
      simp [h2, h3]
    · simp
  · intro env s items p h1 h2
    unfold predict_meal_nutrition load_active_food_model
    rw [h1]
    simp [h2, osPathExists, retrain_food_model, loadArtifact, dumpArtifact]

/-- C2 witness: the amended theorem applied at concrete desynchronized
states of both families. -/
theorem C2_amended_artifact_failure_is_asymmetric_witness :
    (predict_alert_for_twin alertStateDangling twinAtBoundary =
        (.exn ("FileNotFoundError: " ++ "models/a1.joblib"),
          alertStateDangling, 0) ∧
      AlertOutcome.exn ("FileNotFoundError: " ++ "models/a1.joblib") ≠
        AlertOutcome.errorResult "No active model found") ∧
    predict_meal_nutrition envFoodA foodStateDangling [] =
      (packTotals (mealTotals envFoodA.trained_model []),
        (retrain_food_model envFoodA foodStateDangling).1, 1) :=
  ⟨C2_amended_artifact_failure_is_asymmetric.1 alertStateDangling
      twinAtBoundary "models/a1.joblib" (by decide) (by decide) rfl,
    C2_amended_artifact_failure_is_asymmetric.2 envFoodA foodStateDangling
      [] "models_food/food_model_x.joblib" (by decide) rfl⟩

/-- Promoting a fresh active record over a deactivated registry yields
exactly one active record, sitting at the end, while pre-existing records
keep everything but their cleared `active` flag. -/
theorem promoted_registry_props {A : Type} (old : List A) (r : A)
    (act : A → Bool) (deact : A → A) (hact : act r = true)
    (hdeact : ∀ m, act (deact m) = false) :
    (old.map deact ++ [r]).length = old.length + 1 ∧
    (old.map deact ++ [r]).countP act = 1 ∧
    ((old.map deact ++ [r]).getLast?).map act = some true ∧
    (old.map deact ++ [r]).take old.length = old.map deact := by
  have hcount0 : (old.map deact).countP act = 0 := by
    induction old with
    | nil => rfl
    | cons a l ih => simp [List.countP_cons, hdeact, ih]
  refine ⟨by simp, ?_, ?_, ?_⟩
  · rw [List.countP_append, hcount0]
    simp [List.countP_cons, hact]
  · rw [List.getLast?_concat]
    simp [hact]
  · have h4 := List.take_left (old.map deact) [r]
    rwa [List.length_map] at h4

/-- A successful alert retrain produced a winning path and rewrote the
registry as "deactivate everything, then append the winner's record". -/
theorem retrain_alert_ok_shape (env : AlertEnv) (twins : List Twin)
    (s : AlertState)
    (h : isOkE (retrain_alert_model env twins s).2.2 = true) :
    ∃ bp : String,
      (bakeoff env).best_model_path = some bp ∧
      ((retrain_alert_model env twins s).1).registry =
        s.registry.map (fun m => { m with active := false }) ++
          [winningAlertRecord env bp] := by
  unfold retrain_alert_model at h ⊢
  by_cases hlen : twins.length < 10
  · rw [if_pos hlen] at h
    simp [isOkE] at h
  · rw [if_neg hlen] at h ⊢
    cases hb : (bakeoff env).best_model_path with
    | none => rw [hb] at h; simp [isOkE] at h
    | some bp =>
      exact ⟨bp, rfl, rfl⟩

/-! ## Claim C1: single-active invariant of promotions -/

/-- C1: after every successful training run of either family — from any
prior registry state, hence after each run of any sequence of successful
runs — the registry has grown by exactly one record, exactly one record has
`active = true`, that record is the most recently appended one, and every
pre-existing record is unchanged except for its cleared `active` field. -/
theorem C1_single_active_invariant :
    (∀ (env : AlertEnv) (twins : List Twin) (s : AlertState),
      isOkE (retrain_alert_model env twins s).2.2 = true →
      (((retrain_alert_model env twins s).1).registry.length =
          s.registry.length + 1 ∧
        ((retrain_alert_model env twins s).1).registry.countP
          (fun m => m.active) = 1 ∧
        ((((retrain_alert_model env twins s).1).registry.getLast?).map
          (fun m => m.active)) = some true ∧
        ((retrain_alert_model env twins s).1).registry.take
          s.registry.length =
          s.registry.map (fun m => { m with active := false }))) ∧
    (∀ (env : FoodEnv) (s : FoodState),
      (((retrain_food_model env s).1).registry.length =
          s.registry.length + 1 ∧
        ((retrain_food_model env s).1).registry.countP
          (fun m => m.active) = 1 ∧
        ((((retrain_food_model env s).1).registry.getLast?).map
          (fun m => m.active)) = some true ∧
        ((retrain_food_model env s).1).registry.take s.registry.length =
          s.registry.map (fun m => { m with active := false }))) := by
  constructor
  · intro env twins s h
    obtain ⟨bp, hbp, hreg⟩ := retrain_alert_ok_shape env twins s h
    rw [hreg]
    exact promoted_registry_props s.registry (winningAlertRecord env bp)
      (fun m => m.active) (fun m => { m with active := false }) rfl
      (fun m => rfl)
  · intro env s
    have hreg : ((retrain_food_model env s).1).registry =
        s.registry.map (fun m => { m with active := false }) ++
          [⟨food_model_basename env.timestamp, food_model_path env.timestamp,
            env.mae, env.run_id, env.now_iso, true⟩] := rfl
    rw [hreg]
    exact promoted_registry_props s.registry _
      (fun m => m.active) (fun m => { m with active := false }) rfl
      (fun m => rfl)

/-- C1 witness: a concrete successful alert run over ten stored twins from
an empty registry, and a concrete food run from an empty registry. -/
theorem C1_single_active_invariant_witness :
    (isOkE (retrain_alert_model envAlertA twins10 alertStateEmpty).2.2 =
      true) ∧
    (((retrain_alert_model envAlertA twins10 alertStateEmpty).1).registry.length =
        alertStateEmpty.registry.length + 1 ∧
      ((retrain_alert_model envAlertA twins10 alertStateEmpty).1).registry.countP
        (fun m => m.active) = 1 ∧
      ((((retrain_alert_model envAlertA twins10 alertStateEmpty).1).registry.getLast?).map
        (fun m => m.active)) = some true ∧
      ((retrain_alert_model envAlertA twins10 alertStateEmpty).1).registry.take
        alertStateEmpty.registry.length =
        alertStateEmpty.registry.map (fun m => { m with active := false })) ∧
    (((retrain_food_model envFoodA foodStateEmpty).1).registry.length =
        foodStateEmpty.registry.length + 1 ∧
      ((retrain_food_model envFoodA foodStateEmpty).1).registry.countP
        (fun m => m.active) = 1 ∧
      ((((retrain_food_model envFoodA foodStateEmpty).1).registry.getLast?).map
        (fun m => m.active)) = some true ∧
      ((retrain_food_model envFoodA foodStateEmpty).1).registry.take
        foodStateEmpty.registry.length =
        foodStateEmpty.registry.map (fun m => { m with active := false })) :=
  ⟨rfl,
    C1_single_active_invariant.1 envAlertA twins10 alertStateEmpty rfl,
    C1_single_active_invariant.2 envFoodA foodStateEmpty⟩

/-- A winner returned by the spec-side selection rule is one of the
candidates. -/
theorem spec_first_max_mem :
    ∀ {l : List (String × ℚ)} {m : String × ℚ},
      spec_first_max l = some m → m ∈ l := by
  intro l
  induction l with
  | nil => intro m h; simp [spec_first_max] at h
  | cons c rest ih =>
    intro m h
    cases hr : spec_first_max rest with
    | none =>
      simp only [spec_first_max, hr] at h
      cases h
      exact List.mem_cons_self c rest
    | some b =>
      simp only [spec_first_max, hr] at h
      by_cases hgt : b.2 > c.2
      · rw [if_pos hgt] at h
        cases h
        exact List.mem_cons_of_mem c (ih hr)
      · rw [if_neg hgt] at h
        cases h
        exact List.mem_cons_self c rest

/-- The spec-side selection rule always picks a winner from a nonempty
candidate list. -/
theorem spec_first_max_ne_none (c : String × ℚ)
    (rest : List (String × ℚ)) : spec_first_max (c :: rest) ≠ none := by
  cases hr : spec_first_max rest with
  | none => simp [spec_first_max, hr]
  | some b =>
    simp only [spec_first_max, hr]
    split_ifs <;> simp

/-- The source's left-to-right strict-improvement fold computes the
spec-side first-argmax rule, relative to any incumbent selection state. -/
theorem foldl_bakeoff_eq_spec (env : AlertEnv) :
    ∀ (l : List String) (b : BestState),
      l.foldl (bakeoff_step env) b =
        match spec_first_max (l.map (fun k => (k, env.f1_of k))) with
        | none => b
        | some m =>
          if m.2 > b.best_f1 then
            ⟨some (alert_model_path m.1 env.timestamp), m.2,
              env.acc_of m.1, some m.1, some (env.run_of m.1)⟩
          else b := by
  intro l
  induction l with
  | nil => intro b; rfl
  | cons k rest ih =>
    intro b
    rw [List.foldl_cons, ih (bakeoff_step env b k)]
    simp only [List.map_cons, spec_first_max]
    cases hr : spec_first_max (rest.map (fun k => (k, env.f1_of k))) with
    | none =>
      simp only [bakeoff_step]
    | some m =>
      simp only [bakeoff_step]
      by_cases h2 : m.2 > env.f1_of k
      · rw [if_pos (show m.2 > (k, env.f1_of k).2 from h2)]
        simp only []
        by_cases h1 : env.f1_of k > b.best_f1
        · rw [if_pos h1]
          rw [if_pos (show m.2 >
            (⟨some (alert_model_path k env.timestamp), env.f1_of k,
              env.acc_of k, some k, some (env.run_of k)⟩ :
              BestState).best_f1 from h2)]
          rw [if_pos (show m.2 > b.best_f1 from lt_trans h1 h2)]
        · rw [if_neg h1]
      · rw [if_neg (show ¬ (m.2 > (k, env.f1_of k).2) from h2)]
        simp only []
        by_cases h1 : env.f1_of k > b.best_f1
        · rw [if_pos h1]
          rw [if_neg (show ¬ (m.2 >
            (⟨some (alert_model_path k env.timestamp), env.f1_of k,
              env.acc_of k, some k, some (env.run_of k)⟩ :
              BestState).best_f1) from h2)]
        · rw [if_neg h1]
          rw [if_neg (show ¬ (m.2 > b.best_f1) from fun hc =>
            h2 (lt_of_le_of_lt (not_lt.mp h1) hc))]

/-! ## Claim C4: bake-off selection policy -/

/-- C4: for every assignment of macro-F1 scores (all nonnegative, as
`sklearn.metrics.f1_score` guarantees) to the fixed candidate roster
evaluated in its fixed order, the bake-off selects exactly the candidate
given by the spec-side rule `spec_first_max` — the strictly highest
macro-F1 wins and an exact tie goes to the candidate evaluated first — and
this selection is independent of the accuracies, which are only recorded
alongside the winner. -/
theorem C4_bakeoff_selects_first_argmax (env : AlertEnv)
    (h : ∀ k, 0 ≤ env.f1_of k) :
    ((bakeoff env).best_key =
      (spec_first_max ((alert_roster env.xgboost_available).map
        (fun k => (k, env.f1_of k)))).map (fun m => m.1)) ∧
    (∀ k, (bakeoff env).best_key = some k →
      (bakeoff env).best_f1 = env.f1_of k ∧
      (bakeoff env).best_acc = env.acc_of k) := by
  have hfold := foldl_bakeoff_eq_spec env
    (alert_roster env.xgboost_available) bakeoff_init
  cases hm : spec_first_max ((alert_roster env.xgboost_available).map
      (fun k => (k, env.f1_of k))) with
  | none =>
    exfalso
    obtain ⟨c, rest, heq⟩ : ∃ c rest,
        (alert_roster env.xgboost_available).map
          (fun k => (k, env.f1_of k)) = c :: rest := by
      cases env.xgboost_available <;> exact ⟨_, _, rfl⟩
    rw [heq] at hm
    exact spec_first_max_ne_none c rest hm
  | some m =>
    have hmem := spec_first_max_mem hm
    obtain ⟨k0, hk0, hpair⟩ := List.mem_map.mp hmem
    have hm2 : m.2 = env.f1_of m.1 := by
      rw [← hpair]
    have hgt : m.2 > bakeoff_init.best_f1 := by
      have hnn := h m.1
      show m.2 > (-1 : ℚ)
      rw [hm2]
      linarith
    have hbeq : bakeoff env =
        ⟨some (alert_model_path m.1 env.timestamp), m.2, env.acc_of m.1,
          some m.1, some (env.run_of m.1)⟩ := by
      unfold bakeoff
      rw [hfold, hm]
      simp only []
      rw [if_pos hgt]
    constructor
    · rw [hbeq]
      rfl
    · intro k hk
      rw [hbeq] at hk
      have hkm : m.1 = k := by simpa using hk
      subst hkm
      rw [hbeq]
      exact ⟨hm2, rfl⟩

/-- C4 witness: with macro-F1 scores 70 / 85 / 85 / 10 / 10 / 10 assigned
along the roster order, the selection theorem applies and the winner is
"rf" — the first of the two tied top scorers, mirroring the spec's
a/b/c example. -/
theorem C4_bakeoff_selects_first_argmax_witness :
    (((bakeoff envAlertC4).best_key =
      (spec_first_max ((alert_roster envAlertC4.xgboost_available).map
        (fun k => (k, envAlertC4.f1_of k)))).map (fun m => m.1)) ∧
     (∀ k, (bakeoff envAlertC4).best_key = some k →
       (bakeoff envAlertC4).best_f1 = envAlertC4.f1_of k ∧
       (bakeoff envAlertC4).best_acc = envAlertC4.acc_of k)) ∧
    (bakeoff envAlertC4).best_key = some "rf" :=
  ⟨C4_bakeoff_selects_first_argmax envAlertC4 (fun k => by
      simp only [envAlertC4]
      split_ifs <;> norm_num),
    by decide⟩

/-! ## Claim C3: data-sufficiency gate -/

/-- C3: with fewer than 10 stored twins, alert training raises the
insufficiency error with zero candidates fitted and the durable state —
registry and artifacts — exactly as before the attempt; with exactly 10
stored twins the gate passes and every roster candidate is fitted. -/
theorem C3_data_sufficiency_gate (env : AlertEnv) (twins : List Twin)
    (s : AlertState) :
    (twins.length < 10 →
      retrain_alert_model env twins s =
        (s, 0, Except.error "Not enough twins to train model.")) ∧
    (twins.length = 10 →
      (retrain_alert_model env twins s).2.1 =
        (alert_roster env.xgboost_available).length ∧
      0 < (retrain_alert_model env twins s).2.1) := by
  constructor
  · intro h
    unfold retrain_alert_model
    rw [if_pos h]
  · intro h
    have h10 : ¬ (twins.length < 10) := by omega
    have hr : 0 < (alert_roster env.xgboost_available).length := by
      cases env.xgboost_available <;> simp [alert_roster]
    unfold retrain_alert_model
    rw [if_neg h10]
    cases hb : (bakeoff env).best_model_path <;> exact ⟨rfl, hr⟩

/-- C3 witness: the gate theorem applied at nine and at ten concrete stored
twins over an empty registry. -/
theorem C3_data_sufficiency_gate_witness :
    (twins9.length < 10 ∧
      retrain_alert_model envAlertA twins9 alertStateEmpty =
        (alertStateEmpty, 0,
          Except.error "Not enough twins to train model.")) ∧
    (twins10.length = 10 ∧
      ((retrain_alert_model envAlertA twins10 alertStateEmpty).2.1 =
          (alert_roster envAlertA.xgboost_available).length ∧
        0 < (retrain_alert_model envAlertA twins10 alertStateEmpty).2.1)) :=
  ⟨⟨by simp [twins9], (C3_data_sufficiency_gate envAlertA twins9
      alertStateEmpty).1 (by simp [twins9])⟩,
    ⟨by simp [twins10], (C3_data_sufficiency_gate envAlertA twins10
      alertStateEmpty).2 (by simp [twins10])⟩⟩

/-! ## Claim C6: alert prediction outcomes -/

/-- Training labels built by `_build_label` always lie in {0,1,2,3}; since
a fitted classifier predicts only classes it saw during training, a loaded
alert pipeline's predictions lie in {0,1,2,3} as well, which justifies the
classifier-range hypothesis of the claim-C6 theorem. -/
theorem build_label_lt_four (t : Twin) : build_label t < 4 := by
  simp only [build_label]
  split_ifs <;> norm_num

/-- C6: with no active record in the alert registry, prediction returns the
explicit "No active model found" error dict, triggers no training run and
leaves the durable state unchanged; with an active record whose artifact
loads as a classifier `mdl` predicting in {0,1,2,3} (the range of
`_build_label`, see `build_label_lt_four`), the result carries
`class_id = mdl(features) < 4` and exactly the label of the fixed table
0 → no_consult, 1 → routine_consult, 2 → specialist_consult,
3 → emergency, again with no training and no registry change. -/
theorem C6_alert_prediction_outcomes (s : AlertState) (t : Twin) :
    (get_active_model_path s.registry = none →
      predict_alert_for_twin s t =
        (.errorResult "No active model found", s, 0)) ∧
    (∀ (p : String) (mdl : AlertModelFun),
      get_active_model_path s.registry = some p → ¬ (p = "") →
      s.artifacts p = some mdl → (∀ x, mdl x < 4) →
      mdl (build_feature_vector t) < 4 ∧
      (mdl (build_feature_vector t) = 0 →
        predict_alert_for_twin s t = (.result 0 "no_consult", s, 0)) ∧
      (mdl (build_feature_vector t) = 1 →
        predict_alert_for_twin s t = (.result 1 "routine_consult", s, 0)) ∧
      (mdl (build_feature_vector t) = 2 →
        predict_alert_for_twin s t =
          (.result 2 "specialist_consult", s, 0)) ∧
      (mdl (build_feature_vector t) = 3 →
        predict_alert_for_twin s t = (.result 3 "emergency", s, 0))) := by
  constructor
  · intro h
    unfold predict_alert_for_twin
    rw [h]
  · intro p mdl h1 h2 h3 h4
    refine ⟨h4 _, ?_, ?_, ?_, ?_⟩ <;>
      · intro hk
        unfold predict_alert_for_twin
        rw [h1]
        simp [h2, h3, hk, labels_table]

/-- C6 witness: the prediction theorem applied at a concrete empty registry
(discharging the no-active hypothesis) and at a concrete serving state
whose artifact deserializes to the constant classifier `mdlConst2`. -/
theorem C6_alert_prediction_outcomes_witness :
    (predict_alert_for_twin alertStateEmpty twinAtBoundary =
      (.errorResult "No active model found", alertStateEmpty, 0)) ∧
    (mdlConst2 (build_feature_vector twinAtBoundary) < 4 ∧
      (mdlConst2 (build_feature_vector twinAtBoundary) = 0 →
        predict_alert_for_twin alertStateServing twinAtBoundary =
          (.result 0 "no_consult", alertStateServing, 0)) ∧
      (mdlConst2 (build_feature_vector twinAtBoundary) = 1 →
        predict_alert_for_twin alertStateServing twinAtBoundary =
          (.result 1 "routine_consult", alertStateServing, 0)) ∧
      (mdlConst2 (build_feature_vector twinAtBoundary) = 2 →
        predict_alert_for_twin alertStateServing twinAtBoundary =
          (.result 2 "specialist_consult", alertStateServing, 0)) ∧
      (mdlConst2 (build_feature_vector twinAtBoundary) = 3 →
        predict_alert_for_twin alertStateServing twinAtBoundary =
          (.result 3 "emergency", alertStateServing, 0))) :=
  ⟨(C6_alert_prediction_outcomes alertStateEmpty twinAtBoundary).1 rfl,
    (C6_alert_prediction_outcomes alertStateServing twinAtBoundary).2
      "models/a1.joblib" mdlConst2 (by decide) (by decide) rfl
      (fun x => by norm_num [mdlConst2])⟩

end BodyTwin
